import Mathlib

/-!
Verification of the two custom DDPM inference pipelines in
`pipeline_costum.py` (`DDPMPipeline_Costum` and `DDPMPipeline_Costum_ClsEmb`).

Shallow embedding: tensors are value-level objects (a shape together with
flat row-major data), the external collaborators (the noise-prediction
network, the scheduler, and the torch randomness utilities) are modelled
as function-valued parameters, and the stateful `torch.Generator` is
modelled by explicit state passing through an abstract generator type `G`.
Device placement does not affect values, so device moves (`.to`, `.cpu`)
are value-level identities.
-/

/-- A floating-point torch tensor, modelled with exact rational entries:
a shape and flat row-major data. -/
structure Tensor where
  shape : List Nat
  data : List ℚ
deriving DecidableEq

/-- An integer torch tensor (used for class labels), carrying its dtype tag. -/
structure ITensor where
  dtype : String
  shape : List Nat
  data : List Int
deriving DecidableEq

/-- Device moves (`.to(device)`) do not change tensor values. -/
def Tensor.toDevice (t : Tensor) : Tensor := t

/-- `.cpu()` does not change tensor values. -/
def Tensor.cpu (t : Tensor) : Tensor := t

/-- Device moves for integer tensors. -/
def ITensor.toDevice (t : ITensor) : ITensor := t

/-- `tensor.clone()`: a fresh copy holding the same shape and data. -/
def Tensor.clone (t : Tensor) : Tensor := ⟨t.shape, t.data⟩

/-- The binary maximum on ℚ, written with an explicit test so that it
evaluates by kernel reduction; equal to `max` (see `ratMax_eq_max`). -/
def ratMax (a b : ℚ) : ℚ := if a ≤ b then b else a

/-- The binary minimum on ℚ, written with an explicit test so that it
evaluates by kernel reduction; equal to `min` (see `ratMin_eq_min`). -/
def ratMin (a b : ℚ) : ℚ := if a ≤ b then a else b

/-- `torch.clamp(x, lo, hi)`: elementwise `min (max x lo) hi`. -/
def Tensor.clamp (t : Tensor) (lo hi : ℚ) : Tensor :=
  ⟨t.shape, t.data.map (fun x => ratMin (ratMax x lo) hi)⟩

/-- Elementwise multiplication by a scalar (`image * 0.5`). -/
def Tensor.mulScalar (t : Tensor) (c : ℚ) : Tensor :=
  ⟨t.shape, t.data.map (fun x => x * c)⟩

/-- Elementwise addition of a scalar (`image + 0.5`). -/
def Tensor.addScalar (t : Tensor) (c : ℚ) : Tensor :=
  ⟨t.shape, t.data.map (fun x => x + c)⟩

/-- `.permute(0, 2, 3, 1)` on a 4-D tensor `[b, c, h, w]`, yielding
`[b, h, w, c]` with the data reindexed accordingly.  The pipelines only
apply it to the 4-D image tensor; on other ranks it is left unchanged. -/
def Tensor.permute0231 (t : Tensor) : Tensor :=
  match t.shape with
  | [b, c, h, w] =>
    ⟨[b, h, w, c],
      (List.range b).flatMap (fun bi =>
        (List.range h).flatMap (fun hi =>
          (List.range w).flatMap (fun wi =>
            (List.range c).map (fun ci =>
              t.data.getD (((bi * c + ci) * h + hi) * w + wi) 0))))⟩
  | _ => t

/-- Modelled from the library: `diffusers`' `numpy_to_pil` turns a batch
array into a list of per-image objects, one per element of the leading
batch dimension.  Each PIL image is modelled by the tensor slice it was
built from. -/
def numpy_to_pil (t : Tensor) : List Tensor :=
  match t.shape with
  | [] => []
  | b :: rest =>
    (List.range b).map (fun i => ⟨rest, (t.data.drop (i * rest.prod)).take rest.prod⟩)

/-- The noise-prediction network of the unconditional pipeline: its
configuration (channel count and sample size, either a single int or a
tuple of spatial sizes) and its forward function `(sample, timestep)`. -/
structure UNetModel where
  in_channels : Nat
  sample_size : Nat ⊕ List Nat
  forward : Tensor → Int → Tensor

/-- The class-conditional noise-prediction network: forward takes
`(sample, timestep, class_labels)`. -/
structure UNetClsModel where
  in_channels : Nat
  sample_size : Nat ⊕ List Nat
  forward : Tensor → Int → ITensor → Tensor

/-- The scheduler collaborator: `set_timesteps n` yields the timestep
schedule `scheduler.timesteps` that the loop iterates over, and `step`
consumes `(model_output, t, sample, generator)` and returns the
`prev_sample` together with the advanced generator state. -/
structure SchedulerModel (G : Type) where
  set_timesteps : Nat → List Int
  step : Tensor → Int → Tensor → G → Tensor × G

/-- The torch environment: `randn_tensor` (the diffusers utility) draws a
Gaussian tensor of a given shape, `randint lo hi shape dtype` draws an
integer tensor, both threading the generator state; `device_is_mps`
selects the mps fallback path of the source. -/
structure TorchEnv (G : Type) where
  randn_tensor : List Nat → G → Tensor × G
  randint : Int → Int → List Nat → String → G → ITensor × G
  device_is_mps : Bool

/-- The post-processed image: either a list of PIL images or a tensor. -/
inductive PilOrTensor where
  | pil (images : List Tensor)
  | tens (t : Tensor)
deriving DecidableEq

/-- The value returned by a pipeline call: the structured
`ImagePipelineOutput` or one of the plain tuples of the source. -/
inductive CallResult where
  | dict (images : PilOrTensor)
  | tuple1 (image : PilOrTensor)
  | tuple2 (image : PilOrTensor) (noise_init : Tensor)
  | tuple3 (image : PilOrTensor) (noise_init : Tensor) (class_sample : ITensor)
deriving DecidableEq

/-- The image shape computed from the network configuration (lines 77-85
and 138-146): `(batch_size, in_channels, s, s)` for an int sample size,
`(batch_size, in_channels, *sample_size)` for a tuple. -/
def image_shape_of (in_channels : Nat) (sample_size : Nat ⊕ List Nat)
    (batch_size : Nat) : List Nat :=
  match sample_size with
  | Sum.inl s => [batch_size, in_channels, s, s]
  | Sum.inr l => batch_size :: in_channels :: l

/-- Lines 104-109 and 170-175: post-processing of the final image by
requested output type.  `"pil"`: rescale to `[0, 1]`, clamp, move to cpu,
permute to channels-last and convert to PIL images; `"tensor"`: clamp to
`[-1, 1]`; any other value falls through with no processing. -/
def postProcess (output_type : Option String) (image : Tensor) : PilOrTensor :=
  if output_type = some "pil" then
    PilOrTensor.pil
      (numpy_to_pil ((((image.mulScalar (1/2)).addScalar (1/2)).clamp 0 1).cpu.permute0231))
  else if output_type = some "tensor" then
    PilOrTensor.tens (image.clamp (-1) 1)
  else
    PilOrTensor.tens image

/-- Lines 98-102: the denoising loop of the unconditional pipeline.  For
each timestep in order: predict `model_output` with the network, then ask
the scheduler for the previous image estimate. -/
def denoise_loop {G : Type} (sched : SchedulerModel G) (unet : UNetModel) :
    List Int → Tensor → G → Tensor × G
  | [], image, g => (image, g)
  | t :: ts, image, g =>
    let model_output := unet.forward image t
    let r := sched.step model_output t image g
    denoise_loop sched unet ts r.1 r.2

/-- The unconditional loop instrumented with the list of timesteps at
which the loop body (one prediction plus one scheduler step) ran. -/
def denoise_loop_traced {G : Type} (sched : SchedulerModel G) (unet : UNetModel) :
    List Int → Tensor → G → (Tensor × G) × List Int
  | [], image, g => ((image, g), [])
  | t :: ts, image, g =>
    let model_output := unet.forward image t
    let r := sched.step model_output t image g
    let rest := denoise_loop_traced sched unet ts r.1 r.2
    (rest.1, t :: rest.2)

/-- Lines 164-168: the denoising loop of the class-conditional pipeline;
the network additionally receives the class label tensor. -/
def denoise_loop_cls {G : Type} (sched : SchedulerModel G) (unet : UNetClsModel)
    (class_sample : ITensor) : List Int → Tensor → G → Tensor × G
  | [], image, g => (image, g)
  | t :: ts, image, g =>
    let model_output := unet.forward image t class_sample
    let r := sched.step model_output t image g
    denoise_loop_cls sched unet class_sample ts r.1 r.2

/-- The conditional loop instrumented with, for each executed body, the
timestep and the class label tensor passed to the network there. -/
def denoise_loop_cls_traced {G : Type} (sched : SchedulerModel G) (unet : UNetClsModel)
    (class_sample : ITensor) : List Int → Tensor → G → (Tensor × G) × List (Int × ITensor)
  | [], image, g => ((image, g), [])
  | t :: ts, image, g =>
    let model_output := unet.forward image t class_sample
    let r := sched.step model_output t image g
    let rest := denoise_loop_cls_traced sched unet class_sample ts r.1 r.2
    (rest.1, (t, class_sample) :: rest.2)

/-- `DDPMPipeline_Costum.__call__` (lines 30-117).  Samples Gaussian
noise of the configured shape (with the mps fallback generating
off-device and moving, line 87-92), snapshots it (`noise_init`,
line 94), configures the scheduler, runs the denoising loop,
post-processes by output type, and packages the result: a tuple when
`return_dict` is false ( `(image, noise_init)` in tensor mode,
`(image,)` otherwise), else the structured output. -/
def DDPMPipeline_Costum_call {G : Type} (env : TorchEnv G) (sched : SchedulerModel G)
    (unet : UNetModel) (batch_size : Nat) (generator : G)
    (num_inference_steps : Nat) (output_type : Option String)
    (return_dict : Bool) : CallResult :=
  let image_shape := image_shape_of unet.in_channels unet.sample_size batch_size
  let r0 :=
    if env.device_is_mps then
      let r := env.randn_tensor image_shape generator
      (r.1.toDevice, r.2)
    else
      env.randn_tensor image_shape generator
  let image := r0.1
  let g := r0.2
  let noise_init := image.clone
  let timesteps := sched.set_timesteps num_inference_steps
  let r1 := denoise_loop sched unet timesteps image g
  let processed := postProcess output_type r1.1
  if return_dict = false then
    if output_type = some "tensor" then
      CallResult.tuple2 processed noise_init
    else
      CallResult.tuple1 processed
  else
    CallResult.dict processed

/-- `DDPMPipeline_Costum_ClsEmb.__call__` (lines 127-183).  Same control
flow as the unconditional pipeline, plus the class labels: if the caller
supplied none, they are sampled once before the loop by
`torch.randint(0, 10, (batch_size,), generator, dtype=int64)` and moved
to the device (lines 160-161); the loop passes them to the network at
every step; the tensor-mode tuple is `(image, noise_init, class_sample)`. -/
def DDPMPipeline_Costum_ClsEmb_call {G : Type} (env : TorchEnv G)
    (sched : SchedulerModel G) (unet : UNetClsModel) (batch_size : Nat)
    (generator : G) (class_sample? : Option ITensor)
    (num_inference_steps : Nat) (output_type : Option String)
    (return_dict : Bool) : CallResult :=
  let image_shape := image_shape_of unet.in_channels unet.sample_size batch_size
  let r0 :=
    if env.device_is_mps then
      let r := env.randn_tensor image_shape generator
      (r.1.toDevice, r.2)
    else
      env.randn_tensor image_shape generator
  let image := r0.1
  let g := r0.2
  let noise_init := image.clone
  let timesteps := sched.set_timesteps num_inference_steps
  let rc :=
    match class_sample? with
    | some cs => (cs, g)
    | none =>
      let r := env.randint 0 10 [batch_size] "int64" g
      (r.1.toDevice, r.2)
  let class_sample := rc.1
  let g1 := rc.2
  let r1 := denoise_loop_cls sched unet class_sample timesteps image g1
  let processed := postProcess output_type r1.1
  if return_dict = false then
    if output_type = some "tensor" then
      CallResult.tuple3 processed noise_init class_sample
    else
      CallResult.tuple1 processed
  else
    CallResult.dict processed

/-- The class labels carried by a tuple-form result, when any. -/
def CallResult.classLabels : CallResult → Option ITensor
  | CallResult.tuple3 _ _ cs => some cs
  | _ => none

/-- The initial-noise snapshot carried by a tuple-form result, when any. -/
def CallResult.noiseInitOf : CallResult → Option Tensor
  | CallResult.tuple2 _ n => some n
  | CallResult.tuple3 _ n _ => some n
  | _ => none

/-- The flat data of the image part of a post-processed result. -/
def PilOrTensor.imageData : PilOrTensor → List ℚ
  | PilOrTensor.pil l => (l.map Tensor.data).flatten
  | PilOrTensor.tens t => t.data

/-- The flat data of the image part of a call result. -/
def CallResult.imageData : CallResult → List ℚ
  | CallResult.dict p => p.imageData
  | CallResult.tuple1 p => p.imageData
  | CallResult.tuple2 p _ => p.imageData
  | CallResult.tuple3 p _ _ => p.imageData

/-- The batch (leading) dimension of a post-processed image: the list
length in PIL form, the leading shape entry in tensor form. -/
def PilOrTensor.batchDim : PilOrTensor → Nat
  | PilOrTensor.pil l => l.length
  | PilOrTensor.tens t => t.shape.headD 0

/-- The batch dimension of the image part of a call result. -/
def CallResult.batchDim : CallResult → Nat
  | CallResult.dict p => p.batchDim
  | CallResult.tuple1 p => p.batchDim
  | CallResult.tuple2 p _ => p.batchDim
  | CallResult.tuple3 p _ _ => p.batchDim

/-- The initial Gaussian noise of an unconditional call: the tensor the
denoising loop starts from, of which `noise_init` is a clone. -/
def DDPMPipeline_Costum_initialNoise {G : Type} (env : TorchEnv G)
    (unet : UNetModel) (batch_size : Nat) (generator : G) : Tensor :=
  let image_shape := image_shape_of unet.in_channels unet.sample_size batch_size
  let r0 :=
    if env.device_is_mps then
      let r := env.randn_tensor image_shape generator
      (r.1.toDevice, r.2)
    else
      env.randn_tensor image_shape generator
  r0.1

/-- The initial Gaussian noise of a conditional call. -/
def DDPMPipeline_Costum_ClsEmb_initialNoise {G : Type} (env : TorchEnv G)
    (unet : UNetClsModel) (batch_size : Nat) (generator : G) : Tensor :=
  let image_shape := image_shape_of unet.in_channels unet.sample_size batch_size
  let r0 :=
    if env.device_is_mps then
      let r := env.randn_tensor image_shape generator
      (r.1.toDevice, r.2)
    else
      env.randn_tensor image_shape generator
  r0.1

/-- The per-iteration trace of an unconditional call: the timesteps at
which the loop body of `DDPMPipeline_Costum_call` executed. -/
def DDPMPipeline_Costum_loopTrace {G : Type} (env : TorchEnv G)
    (sched : SchedulerModel G) (unet : UNetModel) (batch_size : Nat)
    (generator : G) (num_inference_steps : Nat) : List Int :=
  let image_shape := image_shape_of unet.in_channels unet.sample_size batch_size
  let r0 :=
    if env.device_is_mps then
      let r := env.randn_tensor image_shape generator
      (r.1.toDevice, r.2)
    else
      env.randn_tensor image_shape generator
  (denoise_loop_traced sched unet (sched.set_timesteps num_inference_steps) r0.1 r0.2).2

/-- The class label tensor a conditional call uses: the caller's, or the
one sampled by `randint(0, 10, (batch_size,), generator, int64)` right
before the loop. -/
def DDPMPipeline_Costum_ClsEmb_usedLabels {G : Type} (env : TorchEnv G)
    (unet : UNetClsModel) (batch_size : Nat) (generator : G)
    (class_sample? : Option ITensor) : ITensor :=
  let image_shape := image_shape_of unet.in_channels unet.sample_size batch_size
  let r0 :=
    if env.device_is_mps then
      let r := env.randn_tensor image_shape generator
      (r.1.toDevice, r.2)
    else
      env.randn_tensor image_shape generator
  let rc :=
    match class_sample? with
    | some cs => (cs, r0.2)
    | none =>
      let r := env.randint 0 10 [batch_size] "int64" r0.2
      (r.1.toDevice, r.2)
  rc.1

/-- The per-iteration trace of a conditional call: for each executed loop
body of `DDPMPipeline_Costum_ClsEmb_call`, the timestep and the class
label tensor passed to the network. -/
def DDPMPipeline_Costum_ClsEmb_loopTrace {G : Type} (env : TorchEnv G)
    (sched : SchedulerModel G) (unet : UNetClsModel) (batch_size : Nat)
    (generator : G) (class_sample? : Option ITensor)
    (num_inference_steps : Nat) : List (Int × ITensor) :=
  let image_shape := image_shape_of unet.in_channels unet.sample_size batch_size
  let r0 :=
    if env.device_is_mps then
      let r := env.randn_tensor image_shape generator
      (r.1.toDevice, r.2)
    else
      env.randn_tensor image_shape generator
  let rc :=
    match class_sample? with
    | some cs => (cs, r0.2)
    | none =>
      let r := env.randint 0 10 [batch_size] "int64" r0.2
      (r.1.toDevice, r.2)
  (denoise_loop_cls_traced sched unet rc.1
    (sched.set_timesteps num_inference_steps) r0.1 rc.2).2

/-- The raw image produced by the final scheduler step of an
unconditional call, before any post-processing. -/
def DDPMPipeline_Costum_rawFinalImage {G : Type} (env : TorchEnv G)
    (sched : SchedulerModel G) (unet : UNetModel) (batch_size : Nat)
    (generator : G) (num_inference_steps : Nat) : Tensor :=
  let image_shape := image_shape_of unet.in_channels unet.sample_size batch_size
  let r0 :=
    if env.device_is_mps then
      let r := env.randn_tensor image_shape generator
      (r.1.toDevice, r.2)
    else
      env.randn_tensor image_shape generator
  (denoise_loop sched unet (sched.set_timesteps num_inference_steps) r0.1 r0.2).1

/-- The raw image produced by the final scheduler step of a conditional
call, before any post-processing. -/
def DDPMPipeline_Costum_ClsEmb_rawFinalImage {G : Type} (env : TorchEnv G)
    (sched : SchedulerModel G) (unet : UNetClsModel) (batch_size : Nat)
    (generator : G) (class_sample? : Option ITensor)
    (num_inference_steps : Nat) : Tensor :=
  let image_shape := image_shape_of unet.in_channels unet.sample_size batch_size
  let r0 :=
    if env.device_is_mps then
      let r := env.randn_tensor image_shape generator
      (r.1.toDevice, r.2)
    else
      env.randn_tensor image_shape generator
  let rc :=
    match class_sample? with
    | some cs => (cs, r0.2)
    | none =>
      let r := env.randint 0 10 [batch_size] "int64" r0.2
      (r.1.toDevice, r.2)
  (denoise_loop_cls sched unet rc.1
    (sched.set_timesteps num_inference_steps) r0.1 rc.2).1

/-- The default of the `num_inference_steps` parameter in both call
signatures (lines 34 and 132). -/
def num_inference_steps_default : Nat := 1000

/-- An unconditional call that omits `num_inference_steps`, so the
signature default applies. -/
def DDPMPipeline_Costum_call_defaultSteps {G : Type} (env : TorchEnv G)
    (sched : SchedulerModel G) (unet : UNetModel) (batch_size : Nat)
    (generator : G) (output_type : Option String) (return_dict : Bool) : CallResult :=
  DDPMPipeline_Costum_call env sched unet batch_size generator
    num_inference_steps_default output_type return_dict

/-- A conditional call that omits `num_inference_steps`, so the
signature default applies. -/
def DDPMPipeline_Costum_ClsEmb_call_defaultSteps {G : Type} (env : TorchEnv G)
    (sched : SchedulerModel G) (unet : UNetClsModel) (batch_size : Nat)
    (generator : G) (class_sample? : Option ITensor)
    (output_type : Option String) (return_dict : Bool) : CallResult :=
  DDPMPipeline_Costum_ClsEmb_call env sched unet batch_size generator
    class_sample? num_inference_steps_default output_type return_dict

/-- A concrete torch environment over a counter generator, used to
instantiate the universally quantified theorems at explicit inputs. -/
def testEnv : TorchEnv Nat :=
  { randn_tensor := fun s g => (⟨s, List.replicate s.prod 2⟩, g + 1),
    randint := fun lo _ s d g => (⟨d, s, List.replicate s.prod lo⟩, g + 1),
    device_is_mps := false }

/-- A concrete scheduler: a descending schedule of `n` timesteps, and a
step function returning its sample unchanged. -/
def testSched : SchedulerModel Nat :=
  { set_timesteps := fun n => ((List.range n).reverse).map Int.ofNat,
    step := fun _ _ x g => (x, g + 1) }

/-- A concrete unconditional network: identity on its sample. -/
def testUNet : UNetModel :=
  { in_channels := 1, sample_size := Sum.inl 1, forward := fun x _ => x }

/-- A concrete conditional network: identity on its sample. -/
def testUNetCls : UNetClsModel :=
  { in_channels := 1, sample_size := Sum.inl 1, forward := fun x _ _ => x }

/-- A concrete caller-supplied class label tensor. -/
def csExample : ITensor := ⟨"int64", [1], [3]⟩

theorem denoise_loop_traced_trace {G : Type} (sched : SchedulerModel G)
    (unet : UNetModel) (ts : List Int) (image : Tensor) (g : G) :
    (denoise_loop_traced sched unet ts image g).2 = ts := by
  induction ts generalizing image g with
  | nil => rfl
  | cons t ts ih => simp [denoise_loop_traced, ih]

theorem denoise_loop_traced_fst {G : Type} (sched : SchedulerModel G)
    (unet : UNetModel) (ts : List Int) (image : Tensor) (g : G) :
    (denoise_loop_traced sched unet ts image g).1 = denoise_loop sched unet ts image g := by
  induction ts generalizing image g with
  | nil => rfl
  | cons t ts ih => simp [denoise_loop_traced, denoise_loop, ih]

theorem denoise_loop_cls_traced_trace {G : Type} (sched : SchedulerModel G)
    (unet : UNetClsModel) (cs : ITensor) (ts : List Int) (image : Tensor) (g : G) :
    (denoise_loop_cls_traced sched unet cs ts image g).2 = ts.map (fun t => (t, cs)) := by
  induction ts generalizing image g with
  | nil => rfl
  | cons t ts ih => simp [denoise_loop_cls_traced, ih]

theorem denoise_loop_cls_traced_fst {G : Type} (sched : SchedulerModel G)
    (unet : UNetClsModel) (cs : ITensor) (ts : List Int) (image : Tensor) (g : G) :
    (denoise_loop_cls_traced sched unet cs ts image g).1
      = denoise_loop_cls sched unet cs ts image g := by
  induction ts generalizing image g with
  | nil => rfl
  | cons t ts ih => simp [denoise_loop_cls_traced, denoise_loop_cls, ih]

theorem denoise_loop_shape {G : Type} (sched : SchedulerModel G) (unet : UNetModel)
    (hs : ∀ m t x g, ((sched.step m t x g).1).shape = x.shape)
    (ts : List Int) (image : Tensor) (g : G) :
    ((denoise_loop sched unet ts image g).1).shape = image.shape := by
  induction ts generalizing image g with
  | nil => rfl
  | cons t ts ih => simp [denoise_loop, ih, hs]

theorem denoise_loop_cls_shape {G : Type} (sched : SchedulerModel G)
    (unet : UNetClsModel) (cs : ITensor)
    (hs : ∀ m t x g, ((sched.step m t x g).1).shape = x.shape)
    (ts : List Int) (image : Tensor) (g : G) :
    ((denoise_loop_cls sched unet cs ts image g).1).shape = image.shape := by
  induction ts generalizing image g with
  | nil => rfl
  | cons t ts ih => simp [denoise_loop_cls, ih, hs]

theorem ratMax_eq_max (a b : ℚ) : ratMax a b = max a b := by
  rw [ratMax, max_def]

theorem ratMin_eq_min (a b : ℚ) : ratMin a b = min a b := by
  rw [ratMin, min_def]

theorem Tensor.clamp_data_mem (t : Tensor) (lo hi : ℚ) (hlohi : lo ≤ hi)
    (x : ℚ) (hx : x ∈ (t.clamp lo hi).data) : lo ≤ x ∧ x ≤ hi := by
  simp only [Tensor.clamp, List.mem_map] at hx
  obtain ⟨y, -, rfl⟩ := hx
  rw [ratMin_eq_min, ratMax_eq_max]
  exact ⟨le_min (le_max_right y lo) hlohi, min_le_right _ _⟩

theorem Tensor.clamp_shape (t : Tensor) (lo hi : ℚ) :
    (t.clamp lo hi).shape = t.shape := rfl

theorem Tensor.mulScalar_shape (t : Tensor) (c : ℚ) :
    (t.mulScalar c).shape = t.shape := rfl

theorem Tensor.addScalar_shape (t : Tensor) (c : ℚ) :
    (t.addScalar c).shape = t.shape := rfl

theorem Tensor.permute0231_headD (t : Tensor) :
    (t.permute0231).shape.headD 0 = t.shape.headD 0 := by
  unfold Tensor.permute0231
  rcases t with ⟨s, d⟩
  match s with
  | [] => rfl
  | [a] => rfl
  | [a, b] => rfl
  | [a, b, c] => rfl
  | [a, b, c, e] => rfl
  | a :: b :: c :: e :: f :: rest => rfl

theorem numpy_to_pil_length (t : Tensor) :
    (numpy_to_pil t).length = t.shape.headD 0 := by
  unfold numpy_to_pil
  rcases t with ⟨s, d⟩
  match s with
  | [] => rfl
  | b :: rest => simp

theorem postProcess_batchDim (output_type : Option String) (image : Tensor) :
    (postProcess output_type image).batchDim = image.shape.headD 0 := by
  unfold postProcess
  split
  · show (numpy_to_pil _).length = image.shape.headD 0
    rw [numpy_to_pil_length, Tensor.permute0231_headD]
    rfl
  · split
    · rfl
    · rfl

theorem call_tensor_imageData {G : Type} (env : TorchEnv G) (sched : SchedulerModel G)
    (unet : UNetModel) (b : Nat) (g : G) (n : Nat) (rd : Bool) :
    (DDPMPipeline_Costum_call env sched unet b g n (some "tensor") rd).imageData
      = ((DDPMPipeline_Costum_rawFinalImage env sched unet b g n).clamp (-1) 1).data := by
  cases rd <;>
    simp [DDPMPipeline_Costum_call, DDPMPipeline_Costum_rawFinalImage, postProcess,
      CallResult.imageData, PilOrTensor.imageData]

theorem cls_call_tensor_imageData {G : Type} (env : TorchEnv G) (sched : SchedulerModel G)
    (unet : UNetClsModel) (b : Nat) (g : G) (cs? : Option ITensor) (n : Nat) (rd : Bool) :
    (DDPMPipeline_Costum_ClsEmb_call env sched unet b g cs? n (some "tensor") rd).imageData
      = ((DDPMPipeline_Costum_ClsEmb_rawFinalImage env sched unet b g cs? n).clamp (-1) 1).data := by
  cases rd <;>
    simp [DDPMPipeline_Costum_ClsEmb_call, DDPMPipeline_Costum_ClsEmb_rawFinalImage,
      postProcess, CallResult.imageData, PilOrTensor.imageData]

theorem image_shape_of_headD (c : Nat) (ss : Nat ⊕ List Nat) (b : Nat) :
    (image_shape_of c ss b).headD 0 = b := by
  cases ss <;> rfl

theorem rawFinalImage_shape {G : Type} (env : TorchEnv G) (sched : SchedulerModel G)
    (unet : UNetModel) (b : Nat) (g : G) (n : Nat)
    (hr : ∀ s gg, ((env.randn_tensor s gg).1).shape = s)
    (hs : ∀ m t x gg, ((sched.step m t x gg).1).shape = x.shape) :
    (DDPMPipeline_Costum_rawFinalImage env sched unet b g n).shape
      = image_shape_of unet.in_channels unet.sample_size b := by
  unfold DDPMPipeline_Costum_rawFinalImage
  rw [denoise_loop_shape sched unet hs]
  split <;> simp [Tensor.toDevice, hr]

theorem cls_rawFinalImage_shape {G : Type} (env : TorchEnv G) (sched : SchedulerModel G)
    (unet : UNetClsModel) (b : Nat) (g : G) (cs? : Option ITensor) (n : Nat)
    (hr : ∀ s gg, ((env.randn_tensor s gg).1).shape = s)
    (hs : ∀ m t x gg, ((sched.step m t x gg).1).shape = x.shape) :
    (DDPMPipeline_Costum_ClsEmb_rawFinalImage env sched unet b g cs? n).shape
      = image_shape_of unet.in_channels unet.sample_size b := by
  unfold DDPMPipeline_Costum_ClsEmb_rawFinalImage
  rw [denoise_loop_cls_shape sched unet _ hs]
  split <;> simp [Tensor.toDevice, hr]

theorem call_batchDim_processed {G : Type} (env : TorchEnv G) (sched : SchedulerModel G)
    (unet : UNetModel) (b : Nat) (g : G) (n : Nat) (out : Option String) (rd : Bool) :
    (DDPMPipeline_Costum_call env sched unet b g n out rd).batchDim
      = (postProcess out (DDPMPipeline_Costum_rawFinalImage env sched unet b g n)).batchDim := by
  cases rd
  · by_cases h : out = some "tensor" <;>
      simp [DDPMPipeline_Costum_call, DDPMPipeline_Costum_rawFinalImage, h,
        CallResult.batchDim]
  · simp [DDPMPipeline_Costum_call, DDPMPipeline_Costum_rawFinalImage, CallResult.batchDim]

theorem cls_call_batchDim_processed {G : Type} (env : TorchEnv G) (sched : SchedulerModel G)
    (unet : UNetClsModel) (b : Nat) (g : G) (cs? : Option ITensor) (n : Nat)
    (out : Option String) (rd : Bool) :
    (DDPMPipeline_Costum_ClsEmb_call env sched unet b g cs? n out rd).batchDim
      = (postProcess out
          (DDPMPipeline_Costum_ClsEmb_rawFinalImage env sched unet b g cs? n)).batchDim := by
  cases rd
  · by_cases h : out = some "tensor" <;>
      simp [DDPMPipeline_Costum_ClsEmb_call, DDPMPipeline_Costum_ClsEmb_rawFinalImage, h,
        CallResult.batchDim]
  · simp [DDPMPipeline_Costum_ClsEmb_call, DDPMPipeline_Costum_ClsEmb_rawFinalImage,
      CallResult.batchDim]

/-- C1, counterexample: the claim asserts the conditional pipeline returns
the caller-supplied class label tensor in the tuple regardless of
`output_type`; at `output_type = "pil"` with `return_dict = False` the
returned tuple is `(image,)` and carries no class labels, so the claim
fails at this concrete input. -/
theorem C1_counterexample_labels_dropped_for_pil_tuple :
    ¬ ((DDPMPipeline_Costum_ClsEmb_call testEnv testSched testUNetCls 1 0
      (some csExample) 1 (some "pil") false).classLabels = some csExample) := by
  decide

/-- C1, amended: for every call to the class-conditional pipeline with
`return_dict = False`, `output_type = "tensor"`, and a caller-supplied
class label tensor, the returned tuple includes that class label tensor
unchanged. -/
theorem C1_labels_returned_in_tensor_tuple {G : Type} (env : TorchEnv G)
    (sched : SchedulerModel G) (unet : UNetClsModel) (b : Nat) (g : G)
    (cs : ITensor) (n : Nat) :
    (DDPMPipeline_Costum_ClsEmb_call env sched unet b g (some cs) n
      (some "tensor") false).classLabels = some cs := by
  simp [DDPMPipeline_Costum_ClsEmb_call, CallResult.classLabels]

/-- C2: for every call to either pipeline, assuming `set_timesteps n`
yields a schedule of exactly `n` timesteps, the denoising loop body (one
network prediction followed by one scheduler step) executes exactly
`num_inference_steps` times. -/
theorem C2_loop_iterations_eq_num_inference_steps {G : Type}
    (env env2 : TorchEnv G) (sched : SchedulerModel G) (unet : UNetModel)
    (unetc : UNetClsModel) (b b2 : Nat) (g g2 : G) (cs? : Option ITensor)
    (n : Nat) (h : (sched.set_timesteps n).length = n) :
    (DDPMPipeline_Costum_loopTrace env sched unet b g n).length = n ∧
    (DDPMPipeline_Costum_ClsEmb_loopTrace env2 sched unetc b2 g2 cs? n).length = n := by
  constructor
  · simp [DDPMPipeline_Costum_loopTrace, denoise_loop_traced_trace, h]
  · simp [DDPMPipeline_Costum_ClsEmb_loopTrace, denoise_loop_cls_traced_trace, h]

theorem C2_loop_iterations_eq_num_inference_steps_witness :
    (testSched.set_timesteps 3).length = 3 ∧
    (DDPMPipeline_Costum_loopTrace testEnv testSched testUNet 1 0 3).length = 3 ∧
    (DDPMPipeline_Costum_ClsEmb_loopTrace testEnv testSched testUNetCls 2 5 none 3).length = 3 := by
  have h := C2_loop_iterations_eq_num_inference_steps testEnv testEnv testSched testUNet
    testUNetCls 1 2 0 5 none 3 (by decide)
  exact ⟨by decide, h.1, h.2⟩

/-- C3: for every call to either pipeline with `output_type = "tensor"`,
every element of the returned image tensor lies in `[-1, 1]`, in both the
structured-result and the tuple return form (`rd` ranges over both). -/
theorem C3_tensor_output_within_unit_interval {G : Type} (env env2 : TorchEnv G)
    (sched sched2 : SchedulerModel G) (unet : UNetModel) (unetc : UNetClsModel)
    (b b2 : Nat) (g g2 : G) (cs? : Option ITensor) (n n2 : Nat) (rd rd2 : Bool)
    (x y : ℚ)
    (hx : x ∈ (DDPMPipeline_Costum_call env sched unet b g n (some "tensor") rd).imageData)
    (hy : y ∈ (DDPMPipeline_Costum_ClsEmb_call env2 sched2 unetc b2 g2 cs? n2
      (some "tensor") rd2).imageData) :
    (-1 ≤ x ∧ x ≤ 1) ∧ (-1 ≤ y ∧ y ≤ 1) := by
  rw [call_tensor_imageData] at hx
  rw [cls_call_tensor_imageData] at hy
  exact ⟨Tensor.clamp_data_mem _ _ _ (by norm_num) x hx,
    Tensor.clamp_data_mem _ _ _ (by norm_num) y hy⟩

theorem C3_tensor_output_within_unit_interval_witness :
    ((1 : ℚ) ∈ (DDPMPipeline_Costum_call testEnv testSched testUNet 1 0 1
      (some "tensor") true).imageData) ∧
    ((1 : ℚ) ∈ (DDPMPipeline_Costum_ClsEmb_call testEnv testSched testUNetCls 1 0 none 1
      (some "tensor") false).imageData) ∧
    ((-1 ≤ (1 : ℚ) ∧ (1 : ℚ) ≤ 1) ∧ (-1 ≤ (1 : ℚ) ∧ (1 : ℚ) ≤ 1)) := by
  refine ⟨by decide, by decide, ?_⟩
  exact C3_tensor_output_within_unit_interval testEnv testEnv testSched testSched testUNet
    testUNetCls 1 1 0 0 none 1 1 true false 1 1 (by decide) (by decide)

/-- C4: two calls to the same pipeline with identical arguments and equal
generator states produce identical results: same call result (hence same
image tensors), same initial-noise tensors, and, for the conditional
pipeline, same class labels.  The network and scheduler are deterministic
functions of their inputs by construction of the embedding. -/
theorem C4_fixed_seed_determinism {G : Type} (env : TorchEnv G)
    (sched : SchedulerModel G) (unet : UNetModel) (unetc : UNetClsModel)
    (b : Nat) (cs? : Option ITensor) (n : Nat) (out : Option String)
    (rd : Bool) (g1 g2 : G) (h : g1 = g2) :
    DDPMPipeline_Costum_call env sched unet b g1 n out rd
      = DDPMPipeline_Costum_call env sched unet b g2 n out rd ∧
    DDPMPipeline_Costum_initialNoise env unet b g1
      = DDPMPipeline_Costum_initialNoise env unet b g2 ∧
    DDPMPipeline_Costum_ClsEmb_call env sched unetc b g1 cs? n out rd
      = DDPMPipeline_Costum_ClsEmb_call env sched unetc b g2 cs? n out rd ∧
    DDPMPipeline_Costum_ClsEmb_initialNoise env unetc b g1
      = DDPMPipeline_Costum_ClsEmb_initialNoise env unetc b g2 ∧
    DDPMPipeline_Costum_ClsEmb_usedLabels env unetc b g1 cs?
      = DDPMPipeline_Costum_ClsEmb_usedLabels env unetc b g2 cs? := by
  subst h
  exact ⟨rfl, rfl, rfl, rfl, rfl⟩

theorem C4_fixed_seed_determinism_witness :
    ((0 : Nat) = 0) ∧
    (DDPMPipeline_Costum_call testEnv testSched testUNet 1 0 1 (some "tensor") false
      = DDPMPipeline_Costum_call testEnv testSched testUNet 1 0 1 (some "tensor") false ∧
    DDPMPipeline_Costum_initialNoise testEnv testUNet 1 0
      = DDPMPipeline_Costum_initialNoise testEnv testUNet 1 0 ∧
    DDPMPipeline_Costum_ClsEmb_call testEnv testSched testUNetCls 1 0 none 1
        (some "tensor") false
      = DDPMPipeline_Costum_ClsEmb_call testEnv testSched testUNetCls 1 0 none 1
        (some "tensor") false ∧
    DDPMPipeline_Costum_ClsEmb_initialNoise testEnv testUNetCls 1 0
      = DDPMPipeline_Costum_ClsEmb_initialNoise testEnv testUNetCls 1 0 ∧
    DDPMPipeline_Costum_ClsEmb_usedLabels testEnv testUNetCls 1 0 none
      = DDPMPipeline_Costum_ClsEmb_usedLabels testEnv testUNetCls 1 0 none) :=
  ⟨rfl, C4_fixed_seed_determinism testEnv testSched testUNet testUNetCls 1 none 1
    (some "tensor") false 0 0 rfl⟩

/-- C5: in both pipelines, `noise_init` is a clone of the initial Gaussian
noise taken before the loop; the pure embedding never mutates it, the
tuple returned with `return_dict = False` and `output_type = "tensor"`
carries it, and it equals the tensor the denoising loop started from
(`DDPMPipeline_Costum_initialNoise` is by definition the loop's starting
tensor, and cloning is the identity on values). -/
theorem C5_initial_noise_snapshot_returned {G : Type} (env env2 : TorchEnv G)
    (sched sched2 : SchedulerModel G) (unet : UNetModel) (unetc : UNetClsModel)
    (b b2 : Nat) (g g2 : G) (cs? : Option ITensor) (n n2 : Nat) :
    (DDPMPipeline_Costum_call env sched unet b g n (some "tensor") false).noiseInitOf
      = some (DDPMPipeline_Costum_initialNoise env unet b g) ∧
    (DDPMPipeline_Costum_ClsEmb_call env2 sched2 unetc b2 g2 cs? n2
        (some "tensor") false).noiseInitOf
      = some (DDPMPipeline_Costum_ClsEmb_initialNoise env2 unetc b2 g2) ∧
    Tensor.clone (DDPMPipeline_Costum_initialNoise env unet b g)
      = DDPMPipeline_Costum_initialNoise env unet b g := by
  refine ⟨?_, ?_, rfl⟩
  · simp [DDPMPipeline_Costum_call, DDPMPipeline_Costum_initialNoise,
      CallResult.noiseInitOf, Tensor.clone]
  · simp [DDPMPipeline_Costum_ClsEmb_call, DDPMPipeline_Costum_ClsEmb_initialNoise,
      CallResult.noiseInitOf, Tensor.clone]

/-- C6: for every call to either pipeline with an `output_type` that is
neither `"pil"` nor `"tensor"`, the post-processing stage applies nothing
(the embedding is total, so no error is raised): the image produced by
the final scheduler step is returned as-is, unscaled and unclamped, in
the structured result or in a one-element tuple. -/
theorem C6_unknown_output_type_falls_through {G : Type} (env env2 : TorchEnv G)
    (sched sched2 : SchedulerModel G) (unet : UNetModel) (unetc : UNetClsModel)
    (b b2 : Nat) (g g2 : G) (cs? : Option ITensor) (n n2 : Nat)
    (out : Option String) (rd rd2 : Bool)
    (h1 : out ≠ some "pil") (h2 : out ≠ some "tensor") :
    DDPMPipeline_Costum_call env sched unet b g n out rd
      = (if rd then
          CallResult.dict (PilOrTensor.tens
            (DDPMPipeline_Costum_rawFinalImage env sched unet b g n))
        else
          CallResult.tuple1 (PilOrTensor.tens
            (DDPMPipeline_Costum_rawFinalImage env sched unet b g n))) ∧
    DDPMPipeline_Costum_ClsEmb_call env2 sched2 unetc b2 g2 cs? n2 out rd2
      = (if rd2 then
          CallResult.dict (PilOrTensor.tens
            (DDPMPipeline_Costum_ClsEmb_rawFinalImage env2 sched2 unetc b2 g2 cs? n2))
        else
          CallResult.tuple1 (PilOrTensor.tens
            (DDPMPipeline_Costum_ClsEmb_rawFinalImage env2 sched2 unetc b2 g2 cs? n2))) := by
  constructor
  · cases rd <;>
      simp [DDPMPipeline_Costum_call, DDPMPipeline_Costum_rawFinalImage, postProcess, h1, h2]
  · cases rd2 <;>
      simp [DDPMPipeline_Costum_ClsEmb_call, DDPMPipeline_Costum_ClsEmb_rawFinalImage,
        postProcess, h1, h2]

theorem C6_unknown_output_type_falls_through_witness :
    ((none : Option String) ≠ some "pil") ∧ ((none : Option String) ≠ some "tensor") ∧
    (DDPMPipeline_Costum_call testEnv testSched testUNet 1 0 1 none true
      = CallResult.dict (PilOrTensor.tens
          (DDPMPipeline_Costum_rawFinalImage testEnv testSched testUNet 1 0 1))) ∧
    (DDPMPipeline_Costum_ClsEmb_call testEnv testSched testUNetCls 1 0 none 1 none false
      = CallResult.tuple1 (PilOrTensor.tens
          (DDPMPipeline_Costum_ClsEmb_rawFinalImage testEnv testSched testUNetCls 1 0 none 1))) := by
  have h := C6_unknown_output_type_falls_through testEnv testEnv testSched testSched testUNet
    testUNetCls 1 1 0 0 none 1 1 none true false (by decide) (by decide)
  exact ⟨by decide, by decide, h.1, h.2⟩

/-- C7: in a call to the class-conditional pipeline with no caller-supplied
class label tensor, the per-iteration trace is exactly the timestep
schedule, each entry paired with the one label tensor sampled before the
loop: the labels are sampled once and the same tensor is passed unchanged
to the network at every iteration. -/
theorem C7_class_labels_sampled_once_and_fixed {G : Type} (env : TorchEnv G)
    (sched : SchedulerModel G) (unetc : UNetClsModel) (b : Nat) (g : G) (n : Nat) :
    DDPMPipeline_Costum_ClsEmb_loopTrace env sched unetc b g none n
      = (sched.set_timesteps n).map
          (fun t => (t, DDPMPipeline_Costum_ClsEmb_usedLabels env unetc b g none)) := by
  simp [DDPMPipeline_Costum_ClsEmb_loopTrace, DDPMPipeline_Costum_ClsEmb_usedLabels,
    denoise_loop_cls_traced_trace]

/-- C8: for every call to either pipeline with batch size `b`, assuming
the external `randn_tensor` honours the requested shape and the network
and scheduler step preserve the shape of the sample they are given, the
batch (first) dimension of the returned image output equals `b`, for
every output type and both return forms. -/
theorem C8_batch_dim_eq_batch_size {G : Type} (env : TorchEnv G)
    (sched : SchedulerModel G) (unet : UNetModel) (unetc : UNetClsModel)
    (b : Nat) (g g2 : G) (cs? : Option ITensor) (n n2 : Nat)
    (out out2 : Option String) (rd rd2 : Bool)
    (hr : ∀ s gg, ((env.randn_tensor s gg).1).shape = s)
    (_hu : ∀ x t, (unet.forward x t).shape = x.shape)
    (_huc : ∀ x t c, (unetc.forward x t c).shape = x.shape)
    (hs : ∀ m t x gg, ((sched.step m t x gg).1).shape = x.shape) :
    (DDPMPipeline_Costum_call env sched unet b g n out rd).batchDim = b ∧
    (DDPMPipeline_Costum_ClsEmb_call env sched unetc b g2 cs? n2 out2 rd2).batchDim = b := by
  constructor
  · rw [call_batchDim_processed, postProcess_batchDim,
      rawFinalImage_shape env sched unet b g n hr hs, image_shape_of_headD]
  · rw [cls_call_batchDim_processed, postProcess_batchDim,
      cls_rawFinalImage_shape env sched unetc b g2 cs? n2 hr hs, image_shape_of_headD]

theorem C8_batch_dim_eq_batch_size_witness :
    (DDPMPipeline_Costum_call testEnv testSched testUNet 2 0 1 (some "pil") true).batchDim = 2 ∧
    (DDPMPipeline_Costum_ClsEmb_call testEnv testSched testUNetCls 2 0 none 1
      (some "tensor") false).batchDim = 2 :=
  C8_batch_dim_eq_batch_size testEnv testSched testUNet testUNetCls 2 0 0 none 1 1
    (some "pil") (some "tensor") true false
    (fun _ _ => rfl) (fun _ _ => rfl) (fun _ _ _ => rfl) (fun _ _ _ _ => rfl)

/-- C9: a call that omits `num_inference_steps` behaves exactly as a call
with `num_inference_steps = 1000`: the signature default is 1000, the
defaulted calls equal the explicit-1000 calls, and (assuming the
scheduler yields a schedule of the requested length) the defaulted loop
runs 1000 iterations. -/
theorem C9_default_num_inference_steps_1000 {G : Type} (env env2 : TorchEnv G)
    (sched : SchedulerModel G) (unet : UNetModel) (unetc : UNetClsModel)
    (b b2 : Nat) (g g2 : G) (cs? : Option ITensor) (out out2 : Option String)
    (rd rd2 : Bool) (h : (sched.set_timesteps 1000).length = 1000) :
    num_inference_steps_default = 1000 ∧
    DDPMPipeline_Costum_call_defaultSteps env sched unet b g out rd
      = DDPMPipeline_Costum_call env sched unet b g 1000 out rd ∧
    DDPMPipeline_Costum_ClsEmb_call_defaultSteps env2 sched unetc b2 g2 cs? out2 rd2
      = DDPMPipeline_Costum_ClsEmb_call env2 sched unetc b2 g2 cs? 1000 out2 rd2 ∧
    (DDPMPipeline_Costum_loopTrace env sched unet b g num_inference_steps_default).length
      = 1000 ∧
    (DDPMPipeline_Costum_ClsEmb_loopTrace env2 sched unetc b2 g2 cs?
      num_inference_steps_default).length = 1000 := by
  refine ⟨rfl, rfl, rfl, ?_, ?_⟩
  · simp [DDPMPipeline_Costum_loopTrace, denoise_loop_traced_trace,
      num_inference_steps_default, h]
  · simp [DDPMPipeline_Costum_ClsEmb_loopTrace, denoise_loop_cls_traced_trace,
      num_inference_steps_default, h]

theorem C9_default_num_inference_steps_1000_witness :
    (testSched.set_timesteps 1000).length = 1000 ∧
    num_inference_steps_default = 1000 ∧
    DDPMPipeline_Costum_call_defaultSteps testEnv testSched testUNet 1 0 (some "tensor") false
      = DDPMPipeline_Costum_call testEnv testSched testUNet 1 0 1000 (some "tensor") false ∧
    DDPMPipeline_Costum_ClsEmb_call_defaultSteps testEnv testSched testUNetCls 1 0 none
        (some "pil") true
      = DDPMPipeline_Costum_ClsEmb_call testEnv testSched testUNetCls 1 0 none 1000
        (some "pil") true ∧
    (DDPMPipeline_Costum_loopTrace testEnv testSched testUNet 1 0
      num_inference_steps_default).length = 1000 ∧
    (DDPMPipeline_Costum_ClsEmb_loopTrace testEnv testSched testUNetCls 1 0 none
      num_inference_steps_default).length = 1000 := by
  have hlen : (testSched.set_timesteps 1000).length = 1000 := by
    simp [testSched]
  have h := C9_default_num_inference_steps_1000 testEnv testEnv testSched testUNet
    testUNetCls 1 1 0 0 none (some "tensor") (some "pil") false true hlen
  exact ⟨hlen, h.1, h.2.1, h.2.2.1, h.2.2.2.1, h.2.2.2.2⟩

/-- C10: when the caller supplies no class label tensor, the labels the
conditional pipeline samples (via `torch.randint(0, 10, (batch_size,),
generator, dtype=int64)`, whose contract is the hypothesis) have shape
`(batch_size,)`, dtype int64, and every element in `[0, 10)`; the bounds
0 and 10 are hard-coded in the call, with no parameter of the public
signature controlling them. -/
theorem C10_sampled_labels_shape_dtype_range {G : Type} (env : TorchEnv G)
    (unetc : UNetClsModel) (b : Nat) (g : G)
    (hr : ∀ lo hi s d gg, lo < hi →
      ((env.randint lo hi s d gg).1).dtype = d ∧
      ((env.randint lo hi s d gg).1).shape = s ∧
      ∀ v ∈ ((env.randint lo hi s d gg).1).data, lo ≤ v ∧ v < hi) :
    (DDPMPipeline_Costum_ClsEmb_usedLabels env unetc b g none).dtype = "int64" ∧
    (DDPMPipeline_Costum_ClsEmb_usedLabels env unetc b g none).shape = [b] ∧
    ∀ v ∈ (DDPMPipeline_Costum_ClsEmb_usedLabels env unetc b g none).data,
      0 ≤ v ∧ v < 10 := by
  simp only [DDPMPipeline_Costum_ClsEmb_usedLabels, ITensor.toDevice]
  exact hr 0 10 [b] "int64" _ (by norm_num)

theorem C10_sampled_labels_shape_dtype_range_witness :
    (DDPMPipeline_Costum_ClsEmb_usedLabels testEnv testUNetCls 2 0 none).dtype = "int64" ∧
    (DDPMPipeline_Costum_ClsEmb_usedLabels testEnv testUNetCls 2 0 none).shape = [2] ∧
    ((0 : Int) ≤ 0 ∧ (0 : Int) < 10) := by
  have h := C10_sampled_labels_shape_dtype_range testEnv testUNetCls 2 0 ?_
  · exact ⟨h.1, h.2.1, h.2.2 0 (by decide)⟩
  · intro lo hi s d gg hlt
    refine ⟨rfl, rfl, ?_⟩
    intro v hv
    have hveq : v = lo := List.eq_of_mem_replicate hv
    subst hveq
    exact ⟨le_refl v, hlt⟩
